import Mathlib

/-!
DocForge — verification of the job orchestrator and PDF verification engine.

Shallow embedding of `src/backend/app/pdf/verify.py` (PDFVerifier.verify,
PDFVerifier.compute_diff) and `src/backend/app/foxit/pipeline.py`
(JobOrchestrator.run and its `_step_*` methods), together with the data
contracts of `src/backend/app/models/job.py` and the validated release model
of `src/backend/app/models/release.py`.

External collaborators (pymupdf/fitz parsing, hashlib SHA-256, the Foxit
generation and PDF-services clients, asset resolution) are modelled as an
explicit environment record `Env` of abstract functions: `fitz.open` either
yields a parsed document (a list of pages, each carrying its extracted text
and its interactive-annotation count, plus an encryption flag and metadata)
or raises, which we model as `Option Doc`.  Python string operations used by
the code (`upper`, `lower`, `strip`, substring `in`, `replace`, the regex
character-class strip) are modelled character-wise over ASCII.
-/

set_option autoImplicit false

namespace DocForge

/-- Raw bytes of an artifact (Python `bytes`). -/
abbrev Bytes := List Nat

/-- One parsed page as pymupdf exposes it to this code: the text returned by
`page.get_text()` and the number of interactive annotations `page.annots()`
yields. -/
structure Page where
  text : String
  annots : Nat
  deriving Repr, DecidableEq

/-- A parsed document as pymupdf exposes it: ordered pages, the
`doc.is_encrypted` flag and the `doc.metadata` mapping. -/
structure Doc where
  pages : List Page
  isEncrypted : Bool
  metadata : List (String × String)
  deriving Repr, DecidableEq

/-- Structure `VerifyExpectations` from `app/pdf/verify.py`. -/
structure VerifyExpectations where
  watermark_text : String := ""
  should_be_encrypted : Bool := false
  expected_pages : Option Int := none
  deriving Repr, DecidableEq

/-- Structure `VerificationResult` from `app/models/job.py`. -/
structure VerificationResult where
  page_count : Nat := 0
  has_text : Bool := false
  watermark_detected : Bool := false
  watermark_on_all_pages : Bool := false
  is_encrypted : Bool := false
  flattening_signals : Bool := false
  file_size : Nat := 0
  content_hash : String := ""
  metadata : List (String × String) := []
  checks_passed : Nat := 0
  checks_total : Nat := 0
  passed : Bool := false
  deriving Repr, DecidableEq

/-- Structure `DiffSummary` from `app/models/job.py`. -/
structure DiffSummary where
  watermark_applied : Bool := false
  flattened : Bool := false
  password_protected : Bool := false
  size_change_bytes : Int := 0
  deriving Repr, DecidableEq

/-! ## Python string primitives (ASCII model) -/

/-- Python `str.upper()` (ASCII model). -/
def pyUpper (s : String) : String := String.mk (s.data.map Char.toUpper)

/-- Python `str.lower()` (ASCII model). -/
def pyLower (s : String) : String := String.mk (s.data.map Char.toLower)

/-- ASCII whitespace, for the `str.strip()` model. -/
def isSpaceChar (c : Char) : Bool :=
  c == ' ' || c == '\t' || c == '\n' || c == '\r'

/-- Python `str.strip()` (ASCII whitespace model): drop leading and trailing
whitespace characters. -/
def pyStrip (s : String) : String :=
  String.mk (((s.data.dropWhile isSpaceChar).reverse.dropWhile isSpaceChar).reverse)

/-- Does `hay` start with `needle`? (helper for substring containment). -/
def charsStartWith : List Char → List Char → Bool
  | _, [] => true
  | [], _ :: _ => false
  | c :: cs, d :: ds => c == d && charsStartWith cs ds

/-- Substring containment on character lists (Python `needle in hay`). -/
def charsContain : List Char → List Char → Bool
  | [], needle => needle.isEmpty
  | c :: cs, needle => charsStartWith (c :: cs) needle || charsContain cs needle

/-- Python `needle in hay` for strings. -/
def strContains (hay needle : String) : Bool := charsContain hay.data needle.data

/-! ## PDFVerifier.verify -/

/-- Behaviour of the two external capabilities `verify`/`compute_diff` call
into: whether `import fitz` succeeds, what `fitz.open(stream=b)` yields
(`none` = the parser raises), and the hex digest `hashlib.sha256(b)`
returns. -/
structure FitzEnv where
  fitzAvailable : Bool
  parse : Bytes → Option Doc
  sha256 : Bytes → String

/-- Error raised out of `verify`/`compute_diff` when `fitz.open` fails. -/
inductive VerifyError
  | openFailed
  deriving Repr, DecidableEq

/-- The watermark loop of `verify` (lines 69–76 of verify.py): walks the
pages once, accumulating `any_page_has_wm` (starts `False`) and
`all_pages_have_wm` (starts `True`).  `wm` is already upper-cased. -/
def watermarkScan (wm : String) : List Page → Bool × Bool
  | [] => (false, true)
  | p :: ps =>
    let rest := watermarkScan wm ps
    if strContains (pyUpper p.text) wm then (true, rest.2) else (rest.1, false)

/-- Total number of interactive annotations of a document
(`sum(len(list(p.annots() or [])) for p in doc)`). -/
def totalAnnots (d : Doc) : Nat := (d.pages.map Page.annots).sum

/-- The seven check booleans of `verify`, in the order the code inserts them
into the `checks` dict: opens_and_parses, page_count_stable,
has_text_content, watermark_detected, watermark_all_pages,
encryption_matches, no_annotations. -/
def verifyChecks (doc : Doc) (e : VerifyExpectations) : List Bool :=
  let opens := decide (0 < doc.pages.length)
  let pageCountStable :=
    match e.expected_pages with
    | some n => decide ((doc.pages.length : Int) = n)
    | none => true
  let hasText := doc.pages.any fun p => !(pyStrip p.text).isEmpty
  let wm :=
    if !(e.watermark_text.isEmpty) then watermarkScan (pyUpper e.watermark_text) doc.pages
    else (true, true)
  let encMatches := doc.isEncrypted == e.should_be_encrypted
  let hasAnnotations := doc.pages.any fun p => decide (0 < p.annots)
  [opens, pageCountStable, hasText, wm.1, wm.2, encMatches, !hasAnnotations]

/-- Method `PDFVerifier.verify` (verify.py lines 37–123).  The `ImportError` branch
returns the vacuous report; otherwise `fitz.open` either raises
(`.error .openFailed`) or the seven checks are computed over the parsed
document. -/
def verify (env : FitzEnv) (pdf_bytes : Bytes) (e : VerifyExpectations) :
    Except VerifyError VerificationResult :=
  if !env.fitzAvailable then
    .ok { checks_passed := 0, checks_total := 0, passed := true,
          file_size := pdf_bytes.length,
          content_hash := env.sha256 pdf_bytes }
  else
    match env.parse pdf_bytes with
    | none => .error .openFailed
    | some doc =>
      let checks := verifyChecks doc e
      let hasText := doc.pages.any fun p => !(pyStrip p.text).isEmpty
      let wm :=
        if !(e.watermark_text.isEmpty) then watermarkScan (pyUpper e.watermark_text) doc.pages
        else (true, true)
      let hasAnnotations := doc.pages.any fun p => decide (0 < p.annots)
      let passedCount := (checks.filter (fun b => b)).length
      let totalCount := checks.length
      .ok { page_count := doc.pages.length,
            has_text := hasText,
            watermark_detected := wm.1,
            watermark_on_all_pages := wm.2,
            is_encrypted := doc.isEncrypted,
            flattening_signals := !hasAnnotations,
            file_size := pdf_bytes.length,
            content_hash := env.sha256 pdf_bytes,
            metadata := doc.metadata.filter fun kv => !kv.2.isEmpty,
            checks_passed := passedCount,
            checks_total := totalCount,
            passed := passedCount == totalCount }

/-- Method `PDFVerifier.compute_diff` (verify.py lines 125–160). -/
def compute_diff (env : FitzEnv) (before_bytes after_bytes : Bytes)
    (watermark_text : String := "") (password_applied : Bool := false) :
    Except VerifyError DiffSummary :=
  if !env.fitzAvailable then
    .ok { size_change_bytes := (after_bytes.length : Int) - (before_bytes.length : Int) }
  else
    match env.parse before_bytes, env.parse after_bytes with
    | some before, some after =>
      let wmDetected :=
        if !(watermark_text.isEmpty) then
          after.pages.any fun p => strContains (pyUpper p.text) (pyUpper watermark_text)
        else false
      let beforeAnnots := totalAnnots before
      let afterAnnots := totalAnnots after
      .ok { watermark_applied := wmDetected,
            flattened := decide (0 < beforeAnnots) && decide (afterAnnots = 0),
            password_protected := password_applied,
            size_change_bytes := (after_bytes.length : Int) - (before_bytes.length : Int) }
    | _, _ => .error .openFailed

/-! ## Job orchestrator (`app/foxit/pipeline.py`) -/

/-- Enum `JobState` from `app/models/job.py`. -/
inductive JobState
  | RECEIVED | VALIDATED | ASSET_RESOLVED | BASE_PDF_GENERATED
  | POST_PROCESSED | VERIFIED | DELIVERED | FAILED
  deriving Repr, DecidableEq

/-- The raw, untyped input dict handed to the orchestrator.  Fields the
claims exercise; absent keys are `none`. -/
structure RawInput where
  product_name : Option String := none
  version : Option String := none
  summary : Option String := none
  images : List String := []
  attachments : List String := []
  deriving Repr, DecidableEq

/-- The validated `ReleaseModel` (pydantic, `app/models/release.py`),
restricted to the fields the orchestrator claims exercise. -/
structure ReleaseModel where
  product_name : String
  version : String
  summary : String := ""
  images : List String := []
  attachments : List String := []
  deriving Repr, DecidableEq

/-- Constructor call `ReleaseModel(**raw_data)`: pydantic validation.  `product_name` is
required with 1 ≤ length ≤ 200, `version` required with 1 ≤ length ≤ 50,
`summary` optional with length ≤ 5000.  The error is the single message the
orchestrator wraps into `ValidationError([str(exc)])`. -/
def validateRelease (raw : RawInput) : Except String ReleaseModel :=
  match raw.product_name, raw.version with
  | none, _ => .error "product_name: Field required"
  | some _, none => .error "version: Field required"
  | some p, some v =>
    if p.length = 0 || 200 < p.length then
      .error "product_name: constraint violated"
    else if v.length = 0 || 50 < v.length then
      .error "version: constraint violated"
    else if 5000 < (raw.summary.getD "").length then
      .error "summary: constraint violated"
    else
      .ok { product_name := p, version := v, summary := raw.summary.getD "",
            images := raw.images, attachments := raw.attachments }

/-- Options handed to `JobOrchestrator.__init__` (the ones the claims
exercise; `template_id`/`asset_dir` do not affect the modelled behaviour). -/
structure JobOptions where
  engine : String := "docgen"
  watermark_text : String := "INTERNAL"
  password : Option String := none
  verify : Bool := true
  deriving Repr, DecidableEq

/-- Python truthiness of the `password` option (`if self.password:` /
`bool(self.password)`): `None` and the empty string are falsy. -/
def pwTruthy : Option String → Bool
  | none => false
  | some s => !s.isEmpty

/-- Structure `ArtifactMetadata` from `app/models/job.py`. -/
structure ArtifactMetadata where
  filename : String
  size_bytes : Nat
  pages : Nat := 0
  content_hash : String := ""
  deriving Repr, DecidableEq

/-- Structure `JobResult` from `app/models/job.py` (timings carry step name and
status; wall-clock durations are not modelled). -/
structure JobResult where
  job_id : String
  engine_used : String
  input_hash : String
  artifact : ArtifactMetadata
  before_pdf_id : Option String := none
  after_pdf_id : Option String := none
  steps : List (String × String) := []
  warnings : List String := []
  verification : Option VerificationResult := none
  diff_summary : Option DiffSummary := none
  deriving Repr, DecidableEq

/-- Error taxonomy raised out of the pipeline (`app/errors.py`). -/
inductive PipelineError
  | validation (errors : List String)
  | assetError (msg : String)
  | engineError (msg : String)
  | serviceError (msg : String)
  | verificationRaised (e : VerifyError)
  deriving Repr, DecidableEq

/-- Environment of external collaborators the orchestrator calls into:
the generation engines, asset resolution, the PDF-services client
operations, pymupdf and hashing.  Each fallible call is an `Except`. -/
structure Env where
  fitz : FitzEnv
  freshJobId : String
  rawHash : RawInput → String
  generateDocgen : ReleaseModel → Except String Bytes
  generateLatex : ReleaseModel → Except String Bytes
  resolveAssets : ReleaseModel → Except String (List String)
  upload : Bytes → Except String String
  addWatermark : String → String → Except String String
  flattenPdf : String → Except String String
  protectPdf : String → String → Except String String
  download : String → Except String Bytes

/-- Mutable per-job state of the orchestrator (`self.state`, `self.ctx`,
`self.timings`) plus instrumentation: the sequence of states assigned, and
how many times each collaborator operation was invoked. -/
structure StepState where
  state : JobState := .RECEIVED
  visited : List JobState := [.RECEIVED]
  steps : List (String × String) := []
  warnings : List String := []
  basePdf : Bytes := []
  basePdfDocId : Option String := none
  finalPdf : Bytes := []
  finalPdfDocId : Option String := none
  verification : Option VerificationResult := none
  diff : Option DiffSummary := none
  expectationsUsed : Option VerifyExpectations := none
  generateCalls : Nat := 0
  resolveCalls : Nat := 0
  uploadCalls : Nat := 0
  watermarkCalls : Nat := 0
  flattenCalls : Nat := 0
  protectCalls : Nat := 0
  downloadCalls : Nat := 0
  deriving Repr, DecidableEq

/-- Record an assignment to `self.state`. -/
def StepState.enter (s : StepState) (st : JobState) : StepState :=
  { s with state := st, visited := s.visited ++ [st] }

/-- Step `_step_validate`: parse raw input; on failure record the failed step and
raise `ValidationError([str(exc)])`. -/
def stepValidate (raw : RawInput) (s : StepState) :
    Except (PipelineError × StepState) (ReleaseModel × StepState) :=
  match validateRelease raw with
  | .ok release =>
    .ok (release, { s.enter .VALIDATED with steps := s.steps ++ [("validate", "ok")] })
  | .error msg =>
    .error (.validation [msg], { s with steps := s.steps ++ [("validate", "failed")] })

/-- Step `_step_resolve_assets`: skipped when the document references no images
or attachments; otherwise delegate to the asset-resolution collaborator. -/
def stepResolveAssets (env : Env) (release : ReleaseModel) (s : StepState) :
    Except (PipelineError × StepState) StepState :=
  if release.images.isEmpty && release.attachments.isEmpty then
    .ok { s.enter .ASSET_RESOLVED with steps := s.steps ++ [("resolve_assets", "skipped")] }
  else
    let s := { s with resolveCalls := s.resolveCalls + 1 }
    match env.resolveAssets release with
    | .ok ws =>
      .ok { s.enter .ASSET_RESOLVED with
            warnings := s.warnings ++ ws,
            steps := s.steps ++ [("resolve_assets", "ok")] }
    | .error msg => .error (.assetError msg, s)

/-- Step `_step_generate`: dispatch on the engine identifier (`"latex"` vs the
docgen default), store the returned bytes as the base artifact. -/
def stepGenerate (env : Env) (opts : JobOptions) (release : ReleaseModel) (s : StepState) :
    Except (PipelineError × StepState) StepState :=
  let s := { s with generateCalls := s.generateCalls + 1 }
  let result :=
    if opts.engine == "latex" then env.generateLatex release
    else env.generateDocgen release
  match result with
  | .ok pdf =>
    .ok { s.enter .BASE_PDF_GENERATED with
          basePdf := pdf, steps := s.steps ++ [("generate", "ok")] }
  | .error msg => .error (.engineError msg, s)

/-- Step `_step_post_process`: upload, watermark, flatten, optionally protect
(only when the password option is truthy), download. -/
def stepPostProcess (env : Env) (opts : JobOptions) (s : StepState) :
    Except (PipelineError × StepState) StepState :=
  let s := { s with uploadCalls := s.uploadCalls + 1 }
  match env.upload s.basePdf with
  | .error msg => .error (.serviceError msg, s)
  | .ok docId0 =>
    let s := { s with basePdfDocId := some docId0, watermarkCalls := s.watermarkCalls + 1 }
    match env.addWatermark docId0 opts.watermark_text with
    | .error msg => .error (.serviceError msg, s)
    | .ok docId1 =>
      let s := { s with flattenCalls := s.flattenCalls + 1 }
      match env.flattenPdf docId1 with
      | .error msg => .error (.serviceError msg, s)
      | .ok docId2 =>
        if pwTruthy opts.password then
          let s := { s with protectCalls := s.protectCalls + 1 }
          match env.protectPdf docId2 (opts.password.getD "") with
          | .error msg => .error (.serviceError msg, s)
          | .ok docId3 =>
            let s := { s with downloadCalls := s.downloadCalls + 1 }
            match env.download docId3 with
            | .error msg => .error (.serviceError msg, s)
            | .ok pdf =>
              .ok { s.enter .POST_PROCESSED with
                    finalPdf := pdf, finalPdfDocId := some docId3,
                    steps := s.steps ++ [("post_process", "ok")] }
        else
          let s := { s with downloadCalls := s.downloadCalls + 1 }
          match env.download docId2 with
          | .error msg => .error (.serviceError msg, s)
          | .ok pdf =>
            .ok { s.enter .POST_PROCESSED with
                  finalPdf := pdf, finalPdfDocId := some docId2,
                  steps := s.steps ++ [("post_process", "ok")] }

/-- Step `_step_verify`: build the expectations record
(`should_be_encrypted := bool(self.password)`), run `verify` then
`compute_diff`; either raising aborts the step. -/
def stepVerify (env : Env) (opts : JobOptions) (s : StepState) :
    Except (PipelineError × StepState) StepState :=
  let expectations : VerifyExpectations :=
    { watermark_text := opts.watermark_text,
      should_be_encrypted := pwTruthy opts.password,
      expected_pages := none }
  let s := { s with expectationsUsed := some expectations }
  match verify env.fitz s.finalPdf expectations with
  | .error e => .error (.verificationRaised e, s)
  | .ok report =>
    match compute_diff env.fitz s.basePdf s.finalPdf opts.watermark_text
        (pwTruthy opts.password) with
    | .error e => .error (.verificationRaised e, s)
    | .ok d =>
      .ok { s.enter .VERIFIED with
            verification := some report, diff := some d,
            steps := s.steps ++ [("verify", "ok")] }

/-- The step sequence of `JobOrchestrator.run` up to delivery. -/
def runSteps (env : Env) (raw : RawInput) (opts : JobOptions) :
    Except (PipelineError × StepState) StepState :=
  match stepValidate raw {} with
  | .error es => .error es
  | .ok (release, s1) =>
    match stepResolveAssets env release s1 with
    | .error es => .error es
    | .ok s2 =>
      match stepGenerate env opts release s2 with
      | .error es => .error es
      | .ok s3 =>
        match stepPostProcess env opts s3 with
        | .error es => .error es
        | .ok s4 =>
          if opts.verify then stepVerify env opts s4 else .ok s4

/-- Character class `[a-z0-9\-_]` of the filename sanitiser. -/
def allowedFilenameChar (c : Char) : Bool :=
  ('a' ≤ c && c ≤ 'z') || ('0' ≤ c && c ≤ '9') || c == '-' || c == '_'

/-- The filename sanitiser of `run` (pipeline.py lines 135–137):
`product.lower().replace(" ", "-")` then `re.sub(r"[^a-z0-9\-_]", "", ·)`. -/
def sanitizeProduct (product : String) : String :=
  let lowered := product.data.map Char.toLower
  let hyphenated := lowered.map fun c => if c == ' ' then '-' else c
  String.mk (hyphenated.filter allowedFilenameChar)

/-- The delivery tail of `run` (pipeline.py lines 115–165): input hash,
content hash, best-effort page count, sanitised filename, aggregate
`JobResult`. -/
def deliver (env : Env) (raw : RawInput) (opts : JobOptions) (s : StepState) : JobResult :=
  let input_hash := env.rawHash raw
  let content_hash := env.fitz.sha256 s.finalPdf
  let pages :=
    if env.fitz.fitzAvailable then
      match env.fitz.parse s.finalPdf with
      | some d => d.pages.length
      | none => 0
    else 0
  let product := raw.product_name.getD "unknown"
  let version := raw.version.getD "0.0.0"
  let filename := sanitizeProduct product ++ "-v" ++ version ++ "-release-notes.pdf"
  { job_id := env.freshJobId,
    engine_used := opts.engine,
    input_hash := input_hash,
    artifact := { filename := filename, size_bytes := s.finalPdf.length,
                  pages := pages, content_hash := content_hash },
    before_pdf_id := s.basePdfDocId,
    after_pdf_id := s.finalPdfDocId,
    steps := s.steps,
    warnings := s.warnings,
    verification := s.verification,
    diff_summary := s.diff }

deriving instance DecidableEq for Except

/-- Observable outcome of one `JobOrchestrator.run` invocation: the returned
value or raised error, the final `self.state`, every state assigned along
the way, the recorded steps, and the collaborator call counts. -/
structure RunOutcome where
  result : Except PipelineError JobResult
  finalState : JobState
  visited : List JobState
  steps : List (String × String)
  expectationsUsed : Option VerifyExpectations
  generateCalls : Nat
  resolveCalls : Nat
  uploadCalls : Nat
  watermarkCalls : Nat
  flattenCalls : Nat
  protectCalls : Nat
  downloadCalls : Nat
  deriving Repr, DecidableEq

/-- Method `JobOrchestrator.run`: execute the step sequence; any raise flips the
state to `FAILED` and propagates; success assembles the `JobResult` and
ends in `DELIVERED`. -/
def run (env : Env) (raw : RawInput) (opts : JobOptions) : RunOutcome :=
  match runSteps env raw opts with
  | .error (e, s) =>
    { result := .error e, finalState := .FAILED,
      visited := s.visited ++ [.FAILED], steps := s.steps,
      expectationsUsed := s.expectationsUsed,
      generateCalls := s.generateCalls, resolveCalls := s.resolveCalls,
      uploadCalls := s.uploadCalls, watermarkCalls := s.watermarkCalls,
      flattenCalls := s.flattenCalls, protectCalls := s.protectCalls,
      downloadCalls := s.downloadCalls }
  | .ok s =>
    let s := s.enter .DELIVERED
    { result := .ok (deliver env raw opts s), finalState := .DELIVERED,
      visited := s.visited, steps := s.steps,
      expectationsUsed := s.expectationsUsed,
      generateCalls := s.generateCalls, resolveCalls := s.resolveCalls,
      uploadCalls := s.uploadCalls, watermarkCalls := s.watermarkCalls,
      flattenCalls := s.flattenCalls, protectCalls := s.protectCalls,
      downloadCalls := s.downloadCalls }

/-! ## Concrete collaborator stubs (for witness instantiations) -/

/-- A one-page parsed document carrying the default watermark text. -/
def stubDoc : Doc :=
  { pages := [{ text := "Hello World INTERNAL", annots := 0 }],
    isEncrypted := false, metadata := [] }

/-- A parsed document with zero pages. -/
def zeroPageDoc : Doc :=
  { pages := [], isEncrypted := false, metadata := [] }

/-- pymupdf available; every byte string parses to `stubDoc`. -/
def stubFitz : FitzEnv :=
  { fitzAvailable := true, parse := fun _ => some stubDoc,
    sha256 := fun b => "sha-" ++ toString b.length }

/-- pymupdf available; `fitz.open` raises on every byte string. -/
def noParseFitz : FitzEnv :=
  { fitzAvailable := true, parse := fun _ => none,
    sha256 := fun b => "sha-" ++ toString b.length }

/-- pymupdf available; every byte string parses to the zero-page document. -/
def zeroPageFitz : FitzEnv :=
  { fitzAvailable := true, parse := fun _ => some zeroPageDoc,
    sha256 := fun b => "sha-" ++ toString b.length }

/-- pymupdf not importable. -/
def noFitz : FitzEnv :=
  { fitzAvailable := false, parse := fun _ => none,
    sha256 := fun b => "sha-" ++ toString b.length }

/-- Deterministic collaborator stub environment where every remote call
succeeds, parameterised by the pymupdf behaviour. -/
def stubEnvWith (fitz : FitzEnv) : Env :=
  { fitz := fitz,
    freshJobId := "job-0001",
    rawHash := fun _ => "rawhash",
    generateDocgen := fun _ => .ok [1, 2, 3],
    generateLatex := fun _ => .ok [4, 5],
    resolveAssets := fun _ => .ok [],
    upload := fun _ => .ok "doc-up",
    addWatermark := fun _ _ => .ok "doc-wm",
    flattenPdf := fun _ => .ok "doc-flat",
    protectPdf := fun _ _ => .ok "doc-prot",
    download := fun _ => .ok [9, 9, 9, 9] }

/-- All-success environment whose artifacts parse to `stubDoc`. -/
def stubEnv : Env := stubEnvWith stubFitz

/-- All-success environment whose artifacts fail to parse. -/
def noParseEnv : Env := stubEnvWith noParseFitz

/-- All-success environment whose artifacts parse to zero pages. -/
def zeroPageEnv : Env := stubEnvWith zeroPageFitz

/-- The minimal valid raw input of the spec's scenario. -/
def rawAcme : RawInput := { product_name := some "Acme", version := some "1.0.0" }

/-! ## Helper lemmas -/

/-- Score `sum(checks.values())` equals `len(checks)` exactly when every check is
`True`. -/
theorem countTrue_eq_length_iff (l : List Bool) :
    ((l.filter fun b => b).length = l.length) ↔ ∀ b ∈ l, b = true := by
  induction l with
  | nil => simp
  | cons b t ih =>
    cases b with
    | true =>
      rw [List.filter_cons_of_pos (by simp)]
      simp [ih]
    | false =>
      rw [List.filter_cons_of_neg (by simp)]
      simp only [List.length_cons, List.mem_cons]
      constructor
      · intro h
        have hle := List.length_filter_le (fun b => b) t
        omega
      · intro h
        exact absurd (h false (Or.inl rfl)) (by simp)

/-- A check list whose head is `false` can never reach a full score. -/
theorem countTrue_lt_of_head_false (bs : List Bool) :
    ((false :: bs).filter fun b => b).length < (false :: bs).length := by
  rw [List.filter_cons_of_neg (by simp)]
  have hle := List.length_filter_le (fun b => b) bs
  simp only [List.length_cons]
  omega

/-- The watermark page loop computes "found on some page" and "found on
every page". -/
theorem watermarkScan_eq (wm : String) (ps : List Page) :
    watermarkScan wm ps =
      (ps.any (fun p => strContains (pyUpper p.text) wm),
       ps.all (fun p => strContains (pyUpper p.text) wm)) := by
  induction ps with
  | nil => rfl
  | cons p t ih =>
    cases hc : strContains (pyUpper p.text) wm <;>
      simp [watermarkScan, ih, hc]

/-- Unfolding equation for `verify` when pymupdf is importable and the bytes
parse. -/
theorem verify_parse_eq (env : FitzEnv) (bytes : Bytes) (e : VerifyExpectations)
    (doc : Doc) (hf : env.fitzAvailable = true) (hp : env.parse bytes = some doc) :
    verify env bytes e =
      .ok { page_count := doc.pages.length,
            has_text := doc.pages.any fun p => !(pyStrip p.text).isEmpty,
            watermark_detected :=
              (if !(e.watermark_text.isEmpty) then
                watermarkScan (pyUpper e.watermark_text) doc.pages else (true, true)).1,
            watermark_on_all_pages :=
              (if !(e.watermark_text.isEmpty) then
                watermarkScan (pyUpper e.watermark_text) doc.pages else (true, true)).2,
            is_encrypted := doc.isEncrypted,
            flattening_signals := !(doc.pages.any fun p => decide (0 < p.annots)),
            file_size := bytes.length,
            content_hash := env.sha256 bytes,
            metadata := doc.metadata.filter fun kv => !kv.2.isEmpty,
            checks_passed := ((verifyChecks doc e).filter fun b => b).length,
            checks_total := (verifyChecks doc e).length,
            passed := ((verifyChecks doc e).filter fun b => b).length ==
              (verifyChecks doc e).length } := by
  simp [verify, hf, hp]

/-- One-page report `verify` produces on `stubFitz` with the default
watermark expectation. -/
def reportOneAll : VerificationResult :=
  { page_count := 1, has_text := true, watermark_detected := true,
    watermark_on_all_pages := true, is_encrypted := false,
    flattening_signals := true, file_size := 0, content_hash := "sha-0",
    metadata := [], checks_passed := 7, checks_total := 7, passed := true }

/-- Report `verify` produces on `zeroPageFitz` with watermark "INTERNAL". -/
def reportZeroPages : VerificationResult :=
  { page_count := 0, has_text := false, watermark_detected := false,
    watermark_on_all_pages := true, is_encrypted := false,
    flattening_signals := true, file_size := 0, content_hash := "sha-0",
    metadata := [], checks_passed := 4, checks_total := 7, passed := false }

/-! ## Claim theorems: verification engine -/

/-- C7: when pymupdf is unavailable, `verify` returns the vacuous report
(`checks_total = 0`, `passed = true`) rather than raising; and every report
`verify` returns carries `file_size` equal to the artifact's byte length and
`content_hash` equal to the SHA-256 digest of the artifact bytes. -/
theorem verify_vacuous_and_size_hash :
    (∀ (env : FitzEnv) (bytes : Bytes) (e : VerifyExpectations),
      env.fitzAvailable = false →
        verify env bytes e =
          .ok { checks_passed := 0, checks_total := 0, passed := true,
                file_size := bytes.length,
                content_hash := env.sha256 bytes }) ∧
    (∀ (env : FitzEnv) (bytes : Bytes) (e : VerifyExpectations) (r : VerificationResult),
      verify env bytes e = .ok r →
        r.file_size = bytes.length ∧ r.content_hash = env.sha256 bytes) := by
  constructor
  · intro env bytes e hf
    simp [verify, hf]
  · intro env bytes e r h
    unfold verify at h
    split at h
    · cases h
      exact ⟨rfl, rfl⟩
    · cases hp : env.parse bytes with
      | none => rw [hp] at h; simp at h
      | some doc =>
        rw [hp] at h
        cases h
        exact ⟨rfl, rfl⟩

/-- Witness for C7: the vacuous branch at a concrete artifact, and the
size/hash fields of a concrete ordinary report. -/
theorem verify_vacuous_and_size_hash_witness :
    (verify noFitz [1, 2] {} =
      .ok { checks_passed := 0, checks_total := 0, passed := true,
            file_size := ([1, 2] : Bytes).length,
            content_hash := noFitz.sha256 [1, 2] }) ∧
    (reportOneAll.file_size = ([] : Bytes).length ∧
      reportOneAll.content_hash = stubFitz.sha256 []) :=
  ⟨verify_vacuous_and_size_hash.1 noFitz [1, 2] {} rfl,
   verify_vacuous_and_size_hash.2 stubFitz [] {} reportOneAll (by decide)⟩

/-- C2: `compute_diff` reports `flattened` exactly when the before-artifact
has a strictly positive annotation count and the after-artifact has zero,
passes `password_applied` through, and reports `len(after) - len(before)`;
on byte-identical inputs the delta is 0 and `flattened` is false. -/
theorem compute_diff_spec :
    (∀ (env : FitzEnv) (a b : Bytes) (da db : Doc) (wm : String) (pw : Bool),
      env.fitzAvailable = true → env.parse a = some da → env.parse b = some db →
      ∃ d, compute_diff env a b wm pw = .ok d ∧
        (d.flattened = true ↔ 0 < totalAnnots da ∧ totalAnnots db = 0) ∧
        d.password_protected = pw ∧
        d.size_change_bytes = (b.length : Int) - (a.length : Int)) ∧
    (∀ (env : FitzEnv) (a : Bytes) (wm : String) (pw : Bool) (d : DiffSummary),
      compute_diff env a a wm pw = .ok d →
        d.size_change_bytes = 0 ∧ d.flattened = false) := by
  have handz : ∀ t : Nat, (decide (0 < t) && decide (t = 0)) = false := by
    intro t; cases t <;> simp
  constructor
  · intro env a b da db wm pw hf hpa hpb
    have heq : compute_diff env a b wm pw = .ok
        { watermark_applied :=
            if !(wm.isEmpty) then
              db.pages.any fun p => strContains (pyUpper p.text) (pyUpper wm)
            else false,
          flattened := decide (0 < totalAnnots da) && decide (totalAnnots db = 0),
          password_protected := pw,
          size_change_bytes := (b.length : Int) - (a.length : Int) } := by
      simp [compute_diff, hf, hpa, hpb]
    exact ⟨_, heq, by simp, rfl, rfl⟩
  · intro env a wm pw d h
    unfold compute_diff at h
    split at h
    · cases h
      exact ⟨by simp, rfl⟩
    · split at h
      · rename_i before after h1 h2
        rw [h1] at h2
        cases Option.some.inj h2
        cases h
        exact ⟨by simp, handz _⟩
      · simp at h

/-- Witness for C2: a before-artifact with no annotations, an after-artifact
one byte longer, watermark "INTERNAL", password applied; and the identical
bytes corollary. -/
theorem compute_diff_spec_witness :
    (∃ d, compute_diff stubFitz [1] [1, 2] "INTERNAL" true = .ok d ∧
      (d.flattened = true ↔ 0 < totalAnnots stubDoc ∧ totalAnnots stubDoc = 0) ∧
      d.password_protected = true ∧
      d.size_change_bytes = (([1, 2] : Bytes).length : Int) - (([1] : Bytes).length : Int)) ∧
    ({ watermark_applied := false, flattened := false, password_protected := false,
       size_change_bytes := 0 : DiffSummary }.size_change_bytes = 0 ∧
     { watermark_applied := false, flattened := false, password_protected := false,
       size_change_bytes := 0 : DiffSummary }.flattened = false) :=
  ⟨compute_diff_spec.1 stubFitz [1] [1, 2] stubDoc stubDoc "INTERNAL" true rfl rfl rfl,
   compute_diff_spec.2 stubFitz [1] "" false _ (by decide)⟩

/-- C3: if the expected watermark text is empty, checks 4 and 5 both pass
regardless of the document; if non-empty, check 4 passes exactly when the
text occurs case-insensitively on some page and check 5 exactly when it
occurs on every page. -/
theorem verify_watermark_checks (env : FitzEnv) (bytes : Bytes)
    (e : VerifyExpectations) (doc : Doc) (r : VerificationResult)
    (hf : env.fitzAvailable = true) (hp : env.parse bytes = some doc)
    (hr : verify env bytes e = .ok r) :
    (e.watermark_text = "" →
      r.watermark_detected = true ∧ r.watermark_on_all_pages = true) ∧
    (e.watermark_text ≠ "" →
      (r.watermark_detected = true ↔
        ∃ p ∈ doc.pages,
          strContains (pyUpper p.text) (pyUpper e.watermark_text) = true) ∧
      (r.watermark_on_all_pages = true ↔
        ∀ p ∈ doc.pages,
          strContains (pyUpper p.text) (pyUpper e.watermark_text) = true)) := by
  rw [verify_parse_eq env bytes e doc hf hp] at hr
  cases hr
  constructor
  · intro he
    have h0 : ("" : String).isEmpty = true := rfl
    simp [he, h0]
  · intro he
    have hne : e.watermark_text.isEmpty = false := by
      cases hi : e.watermark_text.isEmpty
      · rfl
      · exact absurd ((String.isEmpty_iff _).1 hi) he
    simp [hne, watermarkScan_eq]

/-- Witness for C3 at the concrete one-page stub document and watermark
"INTERNAL". -/
theorem verify_watermark_checks_witness :
    (({ watermark_text := "INTERNAL" } : VerifyExpectations).watermark_text = "" →
      reportOneAll.watermark_detected = true ∧
        reportOneAll.watermark_on_all_pages = true) ∧
    (({ watermark_text := "INTERNAL" } : VerifyExpectations).watermark_text ≠ "" →
      (reportOneAll.watermark_detected = true ↔
        ∃ p ∈ stubDoc.pages,
          strContains (pyUpper p.text)
            (pyUpper ({ watermark_text := "INTERNAL" } : VerifyExpectations).watermark_text) = true) ∧
      (reportOneAll.watermark_on_all_pages = true ↔
        ∀ p ∈ stubDoc.pages,
          strContains (pyUpper p.text)
            (pyUpper ({ watermark_text := "INTERNAL" } : VerifyExpectations).watermark_text) = true)) :=
  verify_watermark_checks stubFitz [] { watermark_text := "INTERNAL" } stubDoc
    reportOneAll rfl rfl (by decide)

/-- C4: the report's `passed` is true exactly when every individual check
passed, i.e. when `checks_passed` equals `checks_total`, and `checks_total`
counts exactly the seven specified checks. -/
theorem verify_passed_iff_all_checks (env : FitzEnv) (bytes : Bytes)
    (e : VerifyExpectations) (doc : Doc) (r : VerificationResult)
    (hf : env.fitzAvailable = true) (hp : env.parse bytes = some doc)
    (hr : verify env bytes e = .ok r) :
    r.checks_total = 7 ∧
    (r.passed = true ↔ r.checks_passed = r.checks_total) ∧
    (r.passed = true ↔ ∀ c ∈ verifyChecks doc e, c = true) := by
  rw [verify_parse_eq env bytes e doc hf hp] at hr
  cases hr
  refine ⟨?_, ?_, ?_⟩
  · unfold verifyChecks
    rfl
  · exact beq_iff_eq
  · rw [show ((((verifyChecks doc e).filter fun b => b).length ==
        (verifyChecks doc e).length) = true ↔
        ((verifyChecks doc e).filter fun b => b).length =
          (verifyChecks doc e).length) from beq_iff_eq]
    exact countTrue_eq_length_iff (verifyChecks doc e)

/-- Witness for C4 at the concrete one-page stub document. -/
theorem verify_passed_iff_all_checks_witness :
    reportOneAll.checks_total = 7 ∧
    (reportOneAll.passed = true ↔
      reportOneAll.checks_passed = reportOneAll.checks_total) ∧
    (reportOneAll.passed = true ↔
      ∀ c ∈ verifyChecks stubDoc { watermark_text := "INTERNAL" }, c = true) :=
  verify_passed_iff_all_checks stubFitz [] { watermark_text := "INTERNAL" }
    stubDoc reportOneAll rfl rfl (by decide)

/-- C10: on a document that parses to zero pages with a non-empty expected
watermark, `watermark_on_all_pages` is vacuously true, `watermark_detected`
is false, and the report still fails overall because check 1 fails. -/
theorem verify_zero_pages (env : FitzEnv) (bytes : Bytes)
    (e : VerifyExpectations) (doc : Doc) (r : VerificationResult)
    (hf : env.fitzAvailable = true) (hp : env.parse bytes = some doc)
    (hz : doc.pages = []) (hw : e.watermark_text ≠ "")
    (hr : verify env bytes e = .ok r) :
    r.watermark_on_all_pages = true ∧ r.watermark_detected = false ∧
      r.passed = false := by
  rw [verify_parse_eq env bytes e doc hf hp] at hr
  cases hr
  have hne : e.watermark_text.isEmpty = false := by
    cases hi : e.watermark_text.isEmpty
    · rfl
    · exact absurd ((String.isEmpty_iff _).1 hi) hw
  refine ⟨?_, ?_, ?_⟩
  · simp [hne, hz, watermarkScan]
  · simp [hne, hz, watermarkScan]
  · show (((verifyChecks doc e).filter fun b => b).length ==
      (verifyChecks doc e).length) = false
    rw [Bool.eq_false_iff]
    intro hp2
    have heq : ((verifyChecks doc e).filter fun b => b).length =
        (verifyChecks doc e).length := eq_of_beq hp2
    have hall := (countTrue_eq_length_iff _).1 heq
    have hfmem : (false : Bool) ∈ verifyChecks doc e := by
      unfold verifyChecks
      simp [hz]
    exact absurd (hall false hfmem) (by simp)

/-- Witness for C10 at a concrete zero-page document. -/
theorem verify_zero_pages_witness :
    reportZeroPages.watermark_on_all_pages = true ∧
    reportZeroPages.watermark_detected = false ∧
    reportZeroPages.passed = false :=
  verify_zero_pages zeroPageFitz [] { watermark_text := "INTERNAL" }
    zeroPageDoc reportZeroPages rfl rfl rfl (by decide) (by decide)

/-- C8: `verify` and `compute_diff` are deterministic — identical bytes and
expectations yield identical results.  (Purity holds by construction of the
embedding: both are total functions of their arguments and the environment,
with no mutable state.) -/
theorem verify_deterministic (env : FitzEnv) (b₁ b₂ a₁ a₂ : Bytes)
    (e₁ e₂ : VerifyExpectations) (wm : String) (pw : Bool)
    (hb : b₁ = b₂) (he : e₁ = e₂) (ha : a₁ = a₂) :
    verify env b₁ e₁ = verify env b₂ e₂ ∧
    compute_diff env a₁ b₁ wm pw = compute_diff env a₂ b₂ wm pw := by
  subst hb
  subst he
  subst ha
  exact ⟨rfl, rfl⟩

/-- Witness for C8 at concrete bytes and expectations. -/
theorem verify_deterministic_witness :
    verify stubFitz [7] { watermark_text := "INTERNAL" } =
      verify stubFitz [7] { watermark_text := "INTERNAL" } ∧
    compute_diff stubFitz [1] [7] "INTERNAL" false =
      compute_diff stubFitz [1] [7] "INTERNAL" false :=
  verify_deterministic stubFitz [7] [7] [1] [1]
    { watermark_text := "INTERNAL" } { watermark_text := "INTERNAL" }
    "INTERNAL" false rfl rfl rfl

/-! ## Pipeline helper lemmas -/

/-- The `JobResult` produced by `run` on `stubEnv` and the minimal Acme
input with default options. -/
def stubJob : JobResult :=
  { job_id := "job-0001", engine_used := "docgen", input_hash := "rawhash",
    artifact := { filename := "acme-v1.0.0-release-notes.pdf",
                  size_bytes := 4, pages := 1, content_hash := "sha-4" },
    before_pdf_id := some "doc-up", after_pdf_id := some "doc-flat",
    steps := [("validate", "ok"), ("resolve_assets", "skipped"),
              ("generate", "ok"), ("post_process", "ok"), ("verify", "ok")],
    warnings := [],
    verification := some
      { page_count := 1, has_text := true, watermark_detected := true,
        watermark_on_all_pages := true, is_encrypted := false,
        flattening_signals := true, file_size := 4, content_hash := "sha-4",
        metadata := [], checks_passed := 7, checks_total := 7, passed := true },
    diff_summary := some
      { watermark_applied := true, flattened := false,
        password_protected := false, size_change_bytes := 1 } }

/-- Report inside the `JobResult` produced by `run` on `zeroPageEnv`. -/
def zeroPageRunReport : VerificationResult :=
  { page_count := 0, has_text := false, watermark_detected := false,
    watermark_on_all_pages := true, is_encrypted := false,
    flattening_signals := true, file_size := 4, content_hash := "sha-4",
    metadata := [], checks_passed := 4, checks_total := 7, passed := false }

/-- The `JobResult` produced by `run` on `zeroPageEnv` and the minimal Acme
input with default options: delivered despite a failing verification. -/
def zeroPageJob : JobResult :=
  { job_id := "job-0001", engine_used := "docgen", input_hash := "rawhash",
    artifact := { filename := "acme-v1.0.0-release-notes.pdf",
                  size_bytes := 4, pages := 0, content_hash := "sha-4" },
    before_pdf_id := some "doc-up", after_pdf_id := some "doc-flat",
    steps := [("validate", "ok"), ("resolve_assets", "skipped"),
              ("generate", "ok"), ("post_process", "ok"), ("verify", "ok")],
    warnings := [],
    verification := some zeroPageRunReport,
    diff_summary := some
      { watermark_applied := false, flattened := false,
        password_protected := false, size_change_bytes := 1 } }

/-- A successful `run` is exactly a successful step sequence followed by
`deliver`. -/
theorem run_result_ok (env : Env) (raw : RawInput) (opts : JobOptions)
    (job : JobResult) (h : (run env raw opts).result = .ok job) :
    ∃ s, runSteps env raw opts = .ok s ∧
      job = deliver env raw opts (s.enter .DELIVERED) := by
  unfold run at h
  cases hrs : runSteps env raw opts with
  | error es =>
    obtain ⟨e, s⟩ := es
    rw [hrs] at h
    simp at h
  | ok s =>
    rw [hrs] at h
    simp only [Except.ok.injEq] at h
    exact ⟨s, rfl, h.symm⟩

/-- A zero-page document can never reach a full check score. -/
theorem verifyChecks_zero_pages_lt (doc : Doc) (e : VerifyExpectations)
    (hz : doc.pages = []) :
    ((verifyChecks doc e).filter fun b => b).length <
      (verifyChecks doc e).length := by
  have hhead : verifyChecks doc e = false :: (verifyChecks doc e).tail := by
    unfold verifyChecks
    rw [hz]
    rfl
  rw [hhead]
  exact countTrue_lt_of_head_false _

/-- On a successful `stepVerify`, the state carries the verification report,
the diff summary and the expectations that were used. -/
theorem stepVerify_ok_fields (env : Env) (opts : JobOptions) (s s' : StepState)
    (h : stepVerify env opts s = .ok s') :
    s'.protectCalls = s.protectCalls ∧
    s'.verification.isSome = true ∧
    ∃ d, s'.diff = some d ∧
      compute_diff env.fitz s.basePdf s.finalPdf opts.watermark_text
        (pwTruthy opts.password) = .ok d := by
  unfold stepVerify at h
  dsimp only at h
  split at h
  · simp at h
  · split at h
    · simp at h
    · rename_i report hrep d hdiff
      cases h
      exact ⟨rfl, rfl, d, rfl, hdiff⟩

/-- Running `compute_diff` with `password_applied = false` never reports password
protection. -/
theorem compute_diff_password_falsy (env : FitzEnv) (a b : Bytes)
    (wm : String) (d : DiffSummary)
    (h : compute_diff env a b wm false = .ok d) :
    d.password_protected = false := by
  unfold compute_diff at h
  split at h
  · cases h; rfl
  · split at h
    · cases h; rfl
    · simp at h

/-! ## Claim theorems: orchestrator -/

/-- C5: every successful job's output filename is the sanitised product
identity (lower-cased, spaces to hyphens, characters outside `[a-z0-9-_]`
stripped) followed by `-v`, the version, and `-release-notes.pdf`; in
particular "Acme"/"1.0.0" yields `acme-v1.0.0-release-notes.pdf`. -/
theorem run_filename_spec :
    (∀ (env : Env) (raw : RawInput) (opts : JobOptions) (job : JobResult),
      (run env raw opts).result = .ok job →
      job.artifact.filename =
        sanitizeProduct (raw.product_name.getD "unknown") ++ "-v" ++
          raw.version.getD "0.0.0" ++ "-release-notes.pdf") ∧
    sanitizeProduct "Acme" ++ "-v" ++ "1.0.0" ++ "-release-notes.pdf" =
      "acme-v1.0.0-release-notes.pdf" := by
  constructor
  · intro env raw opts job h
    obtain ⟨s, -, hjob⟩ := run_result_ok env raw opts job h
    subst hjob
    rfl
  · rfl

/-- Witness for C5: the concrete stub run delivers the expected filename. -/
theorem run_filename_spec_witness :
    (run stubEnv rawAcme {}).result = .ok stubJob ∧
    stubJob.artifact.filename =
      sanitizeProduct (rawAcme.product_name.getD "unknown") ++ "-v" ++
        rawAcme.version.getD "0.0.0" ++ "-release-notes.pdf" :=
  ⟨by decide, run_filename_spec.1 stubEnv rawAcme {} stubJob (by decide)⟩

/-- C6: on raw input missing the product identity or the version (or
violating any field constraint), `run` raises a validation error before any
collaborator is invoked — all collaborator call counts are zero — never
reaches `BASE_PDF_GENERATED`, and ends in `FAILED`. -/
theorem run_invalid_input_aborts (env : Env) (raw : RawInput)
    (opts : JobOptions)
    (h : raw.product_name = none ∨ raw.version = none ∨
      ∃ msg, validateRelease raw = .error msg) :
    ∃ msg, (run env raw opts).result = .error (.validation [msg]) ∧
      (run env raw opts).generateCalls = 0 ∧
      (run env raw opts).resolveCalls = 0 ∧
      (run env raw opts).uploadCalls = 0 ∧
      (run env raw opts).watermarkCalls = 0 ∧
      (run env raw opts).flattenCalls = 0 ∧
      (run env raw opts).protectCalls = 0 ∧
      (run env raw opts).downloadCalls = 0 ∧
      (run env raw opts).finalState = .FAILED ∧
      JobState.BASE_PDF_GENERATED ∉ (run env raw opts).visited := by
  have hv : ∃ msg, validateRelease raw = .error msg := by
    rcases h with hpn | hvn | hv
    · exact ⟨"product_name: Field required", by simp [validateRelease, hpn]⟩
    · cases hpn : raw.product_name with
      | none => exact ⟨"product_name: Field required", by simp [validateRelease, hpn]⟩
      | some p => exact ⟨"version: Field required", by simp [validateRelease, hpn, hvn]⟩
    · exact hv
  obtain ⟨msg, hv⟩ := hv
  refine ⟨msg, ?_⟩
  simp [run, runSteps, stepValidate, hv]

/-- Witness for C6: a raw input with a version but no product name. -/
theorem run_invalid_input_aborts_witness :
    ∃ msg,
      (run stubEnv { version := some "1.0.0" } {}).result =
        .error (.validation [msg]) ∧
      (run stubEnv { version := some "1.0.0" } {}).generateCalls = 0 ∧
      (run stubEnv { version := some "1.0.0" } {}).resolveCalls = 0 ∧
      (run stubEnv { version := some "1.0.0" } {}).uploadCalls = 0 ∧
      (run stubEnv { version := some "1.0.0" } {}).watermarkCalls = 0 ∧
      (run stubEnv { version := some "1.0.0" } {}).flattenCalls = 0 ∧
      (run stubEnv { version := some "1.0.0" } {}).protectCalls = 0 ∧
      (run stubEnv { version := some "1.0.0" } {}).downloadCalls = 0 ∧
      (run stubEnv { version := some "1.0.0" } {}).finalState = .FAILED ∧
      JobState.BASE_PDF_GENERATED ∉
        (run stubEnv { version := some "1.0.0" } {}).visited :=
  run_invalid_input_aborts stubEnv { version := some "1.0.0" } {}
    (Or.inl rfl)

/-! ## Step audit lemmas (field preservation through the pipeline) -/

/-- Project the orchestrator state out of a step result, whether the step
succeeded or raised. -/
def stateOfOutcome {α : Type} (proj : α → StepState) :
    Except (PipelineError × StepState) α → StepState
  | .ok a => proj a
  | .error (_, s) => s

/-- Step `_step_validate` touches neither the protect counter, the expectations
record, nor the diff summary. -/
theorem stepValidate_audit (raw : RawInput) (s : StepState) :
    (stateOfOutcome Prod.snd (stepValidate raw s)).protectCalls = s.protectCalls ∧
    (stateOfOutcome Prod.snd (stepValidate raw s)).expectationsUsed = s.expectationsUsed ∧
    (stateOfOutcome Prod.snd (stepValidate raw s)).diff = s.diff := by
  unfold stepValidate
  split <;> simp [stateOfOutcome, StepState.enter]

/-- Step `_step_resolve_assets` touches neither the protect counter, the
expectations record, nor the diff summary. -/
theorem stepResolveAssets_audit (env : Env) (release : ReleaseModel) (s : StepState) :
    (stateOfOutcome id (stepResolveAssets env release s)).protectCalls = s.protectCalls ∧
    (stateOfOutcome id (stepResolveAssets env release s)).expectationsUsed = s.expectationsUsed ∧
    (stateOfOutcome id (stepResolveAssets env release s)).diff = s.diff := by
  unfold stepResolveAssets
  split
  · simp [stateOfOutcome, StepState.enter]
  · dsimp only
    split <;> simp [stateOfOutcome, StepState.enter]

/-- Step `_step_generate` touches neither the protect counter, the expectations
record, nor the diff summary. -/
theorem stepGenerate_audit (env : Env) (opts : JobOptions) (release : ReleaseModel)
    (s : StepState) :
    (stateOfOutcome id (stepGenerate env opts release s)).protectCalls = s.protectCalls ∧
    (stateOfOutcome id (stepGenerate env opts release s)).expectationsUsed = s.expectationsUsed ∧
    (stateOfOutcome id (stepGenerate env opts release s)).diff = s.diff := by
  unfold stepGenerate
  dsimp only
  split <;> simp [stateOfOutcome, StepState.enter]

/-- When the password option is falsy, `_step_post_process` never submits
the protect transform, and it touches neither the expectations record nor
the diff summary. -/
theorem stepPostProcess_audit (env : Env) (opts : JobOptions) (s : StepState)
    (hpw : pwTruthy opts.password = false) :
    (stateOfOutcome id (stepPostProcess env opts s)).protectCalls = s.protectCalls ∧
    (stateOfOutcome id (stepPostProcess env opts s)).expectationsUsed = s.expectationsUsed ∧
    (stateOfOutcome id (stepPostProcess env opts s)).diff = s.diff := by
  unfold stepPostProcess
  dsimp only
  split
  · simp [stateOfOutcome]
  · split
    · simp [stateOfOutcome]
    · split
      · simp [stateOfOutcome]
      · rw [hpw]
        simp only [Bool.false_eq_true, if_false]
        split <;> simp [stateOfOutcome, StepState.enter]

/-- Step `_step_verify` preserves the protect counter and always records the
expectations it was called with. -/
theorem stepVerify_audit (env : Env) (opts : JobOptions) (s : StepState) :
    (stateOfOutcome id (stepVerify env opts s)).protectCalls = s.protectCalls ∧
    (stateOfOutcome id (stepVerify env opts s)).expectationsUsed =
      some { watermark_text := opts.watermark_text,
             should_be_encrypted := pwTruthy opts.password,
             expected_pages := none } := by
  unfold stepVerify
  dsimp only
  split
  · simp [stateOfOutcome]
  · split <;> simp [stateOfOutcome, StepState.enter]

/-- Through any outcome of the step sequence with a falsy password option,
the protect transform is never submitted and any recorded expectations
carry `should_be_encrypted = false`. -/
theorem runSteps_audit (env : Env) (raw : RawInput) (opts : JobOptions)
    (hpw : pwTruthy opts.password = false) :
    (stateOfOutcome id (runSteps env raw opts)).protectCalls = 0 ∧
    ((stateOfOutcome id (runSteps env raw opts)).expectationsUsed = none ∨
     (stateOfOutcome id (runSteps env raw opts)).expectationsUsed =
       some { watermark_text := opts.watermark_text,
              should_be_encrypted := false, expected_pages := none }) := by
  unfold runSteps
  have A1 := stepValidate_audit raw {}
  cases h1 : stepValidate raw ({} : StepState) with
  | error es =>
    rw [h1] at A1
    obtain ⟨e1, s1⟩ := es
    simp [stateOfOutcome] at A1 ⊢
    exact ⟨A1.1, Or.inl A1.2.1⟩
  | ok p =>
    obtain ⟨release, s1⟩ := p
    rw [h1] at A1
    simp [stateOfOutcome] at A1
    dsimp only
    have A2 := stepResolveAssets_audit env release s1
    cases h2 : stepResolveAssets env release s1 with
    | error es =>
      rw [h2] at A2
      obtain ⟨e2, s2⟩ := es
      simp only [stateOfOutcome, id] at A2 ⊢
      exact ⟨A2.1.trans A1.1, Or.inl (A2.2.1.trans A1.2.1)⟩
    | ok s2 =>
      rw [h2] at A2
      simp only [stateOfOutcome, id] at A2
      dsimp only
      have A3 := stepGenerate_audit env opts release s2
      cases h3 : stepGenerate env opts release s2 with
      | error es =>
        rw [h3] at A3
        obtain ⟨e3, s3⟩ := es
        simp only [stateOfOutcome, id] at A3 ⊢
        exact ⟨A3.1.trans (A2.1.trans A1.1),
               Or.inl (A3.2.1.trans (A2.2.1.trans A1.2.1))⟩
      | ok s3 =>
        rw [h3] at A3
        simp only [stateOfOutcome, id] at A3
        dsimp only
        have A4 := stepPostProcess_audit env opts s3 hpw
        cases h4 : stepPostProcess env opts s3 with
        | error es =>
          rw [h4] at A4
          obtain ⟨e4, s4⟩ := es
          simp only [stateOfOutcome, id] at A4 ⊢
          exact ⟨A4.1.trans (A3.1.trans (A2.1.trans A1.1)),
                 Or.inl (A4.2.1.trans (A3.2.1.trans (A2.2.1.trans A1.2.1)))⟩
        | ok s4 =>
          rw [h4] at A4
          simp only [stateOfOutcome, id] at A4
          dsimp only
          have hs4p : s4.protectCalls = 0 :=
            A4.1.trans (A3.1.trans (A2.1.trans A1.1))
          have hs4e : s4.expectationsUsed = none :=
            A4.2.1.trans (A3.2.1.trans (A2.2.1.trans A1.2.1))
          cases hvf : opts.verify with
          | false =>
            simp only [hvf, Bool.false_eq_true, if_false, stateOfOutcome, id]
            exact ⟨hs4p, Or.inl hs4e⟩
          | true =>
            simp only [hvf, if_true]
            have A5 := stepVerify_audit env opts s4
            rw [hpw] at A5
            exact ⟨A5.1.trans hs4p, Or.inr A5.2⟩

/-- Function `run` exposes exactly the step-sequence state's protect counter and
expectations record. -/
theorem run_fields_eq (env : Env) (raw : RawInput) (opts : JobOptions) :
    (run env raw opts).protectCalls =
      (stateOfOutcome id (runSteps env raw opts)).protectCalls ∧
    (run env raw opts).expectationsUsed =
      (stateOfOutcome id (runSteps env raw opts)).expectationsUsed := by
  unfold run
  cases h : runSteps env raw opts with
  | error es =>
    obtain ⟨e, s⟩ := es
    simp [stateOfOutcome]
  | ok s =>
    simp [stateOfOutcome, StepState.enter]

/-- Step `_step_post_process` never touches the diff summary, password or not. -/
theorem stepPostProcess_diff_any (env : Env) (opts : JobOptions) (s : StepState) :
    (stateOfOutcome id (stepPostProcess env opts s)).diff = s.diff := by
  unfold stepPostProcess
  dsimp only
  repeat' split
  all_goals simp [stateOfOutcome, StepState.enter]

/-- A successful step sequence with verification requested carries a report,
and its diff summary (when present) reflects the password truthiness. -/
theorem runSteps_ok_fields (env : Env) (raw : RawInput) (opts : JobOptions)
    (s : StepState) (h : runSteps env raw opts = .ok s) :
    (opts.verify = true → s.verification.isSome = true) ∧
    (s.diff = none ∨ ∃ d, s.diff = some d ∧
      ∃ a b, compute_diff env.fitz a b opts.watermark_text
        (pwTruthy opts.password) = .ok d) := by
  unfold runSteps at h
  have A1 := stepValidate_audit raw {}
  cases h1 : stepValidate raw ({} : StepState) with
  | error es => rw [h1] at h; simp at h
  | ok p =>
    obtain ⟨release, s1⟩ := p
    rw [h1] at h A1
    simp [stateOfOutcome] at A1
    dsimp only at h
    have A2 := stepResolveAssets_audit env release s1
    cases h2 : stepResolveAssets env release s1 with
    | error es => rw [h2] at h; simp at h
    | ok s2 =>
      rw [h2] at h A2
      simp only [stateOfOutcome, id] at A2
      dsimp only at h
      have A3 := stepGenerate_audit env opts release s2
      cases h3 : stepGenerate env opts release s2 with
      | error es => rw [h3] at h; simp at h
      | ok s3 =>
        rw [h3] at h A3
        simp only [stateOfOutcome, id] at A3
        dsimp only at h
        have B4 := stepPostProcess_diff_any env opts s3
        cases h4 : stepPostProcess env opts s3 with
        | error es => rw [h4] at h; simp at h
        | ok s4 =>
          rw [h4] at h B4
          simp only [stateOfOutcome, id] at B4
          have hs4d : s4.diff = none :=
            B4.trans (A3.2.2.trans (A2.2.2.trans A1.2.2))
          dsimp only at h
          cases hvf : opts.verify with
          | false =>
            rw [hvf] at h
            simp only [Bool.false_eq_true, if_false] at h
            cases h
            exact ⟨fun hc => absurd hc Bool.false_ne_true, Or.inl hs4d⟩
          | true =>
            rw [hvf] at h
            simp only [if_true] at h
            obtain ⟨-, hsome, d, hd, hcd⟩ := stepVerify_ok_fields env opts s4 s h
            exact ⟨fun _ => hsome, Or.inr ⟨d, hd, s4.basePdf, s4.finalPdf, hcd⟩⟩

/-- C9: a supplied-but-empty password behaves exactly as no password at
all: the whole run outcome is identical, the protect transform is never
submitted, the verification expectations carry
`should_be_encrypted = false`, and the delivered diff summary carries
`password_protected = false`. -/
theorem run_empty_password (env : Env) (raw : RawInput) (opts : JobOptions)
    (hpw : opts.password = some "") :
    run env raw opts = run env raw { opts with password := none } ∧
    (run env raw opts).protectCalls = 0 ∧
    (∀ e, (run env raw opts).expectationsUsed = some e →
      e.should_be_encrypted = false) ∧
    (∀ job d, (run env raw opts).result = .ok job →
      job.diff_summary = some d → d.password_protected = false) := by
  have hfalse : pwTruthy opts.password = false := by rw [hpw]; rfl
  refine ⟨?_, ?_, ?_, ?_⟩
  · obtain ⟨eng, wm, pw, vf⟩ := opts
    cases hpw
    rfl
  · exact (run_fields_eq env raw opts).1.trans (runSteps_audit env raw opts hfalse).1
  · intro e he
    rw [(run_fields_eq env raw opts).2] at he
    rcases (runSteps_audit env raw opts hfalse).2 with hn | hs
    · rw [hn] at he
      cases he
    · rw [hs] at he
      cases he
      rfl
  · intro job d hok hd
    obtain ⟨s, hsteps, hjob⟩ := run_result_ok env raw opts job hok
    subst hjob
    have hd' : s.diff = some d := hd
    rcases (runSteps_ok_fields env raw opts s hsteps).2 with hn | ⟨d', hdd, a, b, hcd⟩
    · rw [hn] at hd'
      cases hd'
    · rw [hdd] at hd'
      cases hd'
      rw [hfalse] at hcd
      exact compute_diff_password_falsy env.fitz a b opts.watermark_text _ hcd

/-- Witness for C9 at the concrete stub environment. -/
theorem run_empty_password_witness :
    run stubEnv rawAcme { password := some "" } =
      run stubEnv rawAcme
        { ({ password := some "" } : JobOptions) with password := none } ∧
    (run stubEnv rawAcme { password := some "" }).protectCalls = 0 ∧
    (∀ e, (run stubEnv rawAcme { password := some "" }).expectationsUsed = some e →
      e.should_be_encrypted = false) ∧
    (∀ job d, (run stubEnv rawAcme { password := some "" }).result = .ok job →
      job.diff_summary = some d → d.password_protected = false) :=
  run_empty_password stubEnv rawAcme { password := some "" } rfl

/-- C1 counterexample: on bytes pymupdf cannot open, `verify` raises
(propagates the parser's exception) instead of returning a report with a
failed check 1, and the job ends `FAILED`, never reaching `DELIVERED`. -/
theorem verify_unparseable_raises :
    verify noParseFitz [] { watermark_text := "INTERNAL" } =
      .error .openFailed ∧
    (run noParseEnv rawAcme {}).result =
      .error (.verificationRaised .openFailed) ∧
    (run noParseEnv rawAcme {}).finalState = JobState.FAILED ∧
    JobState.DELIVERED ∉ (run noParseEnv rawAcme {}).visited :=
  ⟨rfl, by decide, by decide, by decide⟩

/-- C1 (amended): when pymupdf opens the bytes, `verify` returns a report
rather than raising, and a document with zero pages is recorded as a failed
check making the report fail overall; a failing report does not abort the
job — every completed run with verification requested ends `DELIVERED` with
the report attached, as the concrete zero-page run shows.  (Bytes that do
not open at all instead propagate the parser's exception and the job ends
`FAILED` — see the counterexample.) -/
theorem verify_failed_check_recorded :
    (∀ (env : FitzEnv) (bytes : Bytes) (e : VerifyExpectations) (doc : Doc),
      env.fitzAvailable = true → env.parse bytes = some doc →
      ∃ r, verify env bytes e = .ok r ∧
        (doc.pages = [] → r.passed = false ∧
          r.checks_passed < r.checks_total)) ∧
    (∀ (env : Env) (raw : RawInput) (opts : JobOptions) (job : JobResult),
      (run env raw opts).result = .ok job → opts.verify = true →
      (run env raw opts).finalState = JobState.DELIVERED ∧
      job.verification.isSome = true) ∧
    ((run zeroPageEnv rawAcme {}).result = .ok zeroPageJob ∧
      (run zeroPageEnv rawAcme {}).finalState = JobState.DELIVERED ∧
      zeroPageJob.verification = some zeroPageRunReport ∧
      zeroPageRunReport.passed = false) := by
  refine ⟨?_, ?_, by decide, by decide, by decide, by decide⟩
  · intro env bytes e doc hf hp
    refine ⟨_, verify_parse_eq env bytes e doc hf hp, ?_⟩
    intro hz
    have hlt := verifyChecks_zero_pages_lt doc e hz
    constructor
    · show (((verifyChecks doc e).filter fun b => b).length ==
        (verifyChecks doc e).length) = false
      cases hbe : (((verifyChecks doc e).filter fun b => b).length ==
          (verifyChecks doc e).length) with
      | false => rfl
      | true => exact absurd (eq_of_beq hbe) (Nat.ne_of_lt hlt)
    · exact hlt
  · intro env raw opts job hok hvf
    obtain ⟨s, hsteps, hjob⟩ := run_result_ok env raw opts job hok
    constructor
    · unfold run
      rw [hsteps]
    · subst hjob
      exact (runSteps_ok_fields env raw opts s hsteps).1 hvf

/-- Witness for the amended C1 at concrete inputs: a zero-page document and
the all-success stub run. -/
theorem verify_failed_check_recorded_witness :
    (∃ r, verify zeroPageFitz ([9, 9, 9, 9] : Bytes)
        { watermark_text := "INTERNAL" } = .ok r ∧
      (zeroPageDoc.pages = [] → r.passed = false ∧
        r.checks_passed < r.checks_total)) ∧
    ((run stubEnv rawAcme {}).finalState = JobState.DELIVERED ∧
      stubJob.verification.isSome = true) :=
  ⟨verify_failed_check_recorded.1 zeroPageFitz [9, 9, 9, 9]
      { watermark_text := "INTERNAL" } zeroPageDoc rfl rfl,
   verify_failed_check_recorded.2.1 stubEnv rawAcme {} stubJob (by decide) rfl⟩

end DocForge
